import Mathlib

/-!
Verification of `src/bridge_py27/nao_bridge.py`, a Python 2.7 HTTP bridge that
forwards a single speech command to a NAO robot backend.

Modelling conventions (shallow embedding):
* A Python 2 `unicode` value is a sequence of Unicode code points, `List Nat`.
* A Python 2 `str` (byte string) is a sequence of byte values, `List Nat`
  with entries below 256 where it matters.
* `os.environ` is an association list from key to value; lookup returns the
  first binding, and the loader only ever inserts keys that are absent,
  matching dict insertion under the `k not in os.environ` guard.
* Exceptions are modelled with `Except`: a raised exception is a `PyExc`
  recording whether it is a `ValueError` together with its `str` and
  `repr`, so the outer handlers of `do_POST` (400 with `str(ve)` for a
  `ValueError`, opaque 500 plus stderr otherwise) apply to every raise
  site uniformly, the backend call included.
* The vendor CP949 codec's double-byte table is not reproduced; the decode
  function is parameterised by the table `Nat → Nat → Nat`, and every
  theorem about it holds for all tables, hence for the real one.  The
  structure (ASCII passthrough, lead/trail ranges, `ignore` dropping
  undecodable bytes) follows the codec.
-/

namespace NaoBridge

/-- Code points of a Lean string literal, used to write concrete Python
`unicode`/`str` values. -/
def str2cp (s : String) : List Nat :=
  s.data.map Char.toNat

/-- Python 2 `unicode.isspace` set (`Py_UNICODE_ISSPACE`), as used by
`unicode.strip()` with no arguments. -/
def pyIsSpace (c : Nat) : Bool :=
  (9 ≤ c && c ≤ 13) || (28 ≤ c && c ≤ 32) || c = 0x85 || c = 0xA0 ||
  c = 0x1680 || c = 0x180E || (0x2000 ≤ c && c ≤ 0x200A) ||
  c = 0x2028 || c = 0x2029 || c = 0x202F || c = 0x205F || c = 0x3000

/-- Python 2 `str.strip()` whitespace set (ASCII whitespace only). -/
def bytesIsSpace (c : Nat) : Bool :=
  (9 ≤ c && c ≤ 13) || c = 32

/-- Strip elements satisfying `p` from both ends of a list. -/
def stripBy (p : Nat → Bool) (s : List Nat) : List Nat :=
  ((s.dropWhile p).reverse.dropWhile p).reverse

/-- Python 2 `unicode.strip()` with no arguments. -/
def pyStrip (s : List Nat) : List Nat :=
  stripBy pyIsSpace s

/-- Python 2 `str.strip()` with no arguments (byte strings). -/
def bytesStrip (s : List Nat) : List Nat :=
  stripBy bytesIsSpace s

/-- UTF-8 continuation byte test (10xxxxxx). -/
def isCont (b : Nat) : Bool :=
  0x80 ≤ b && b < 0xC0

/-- UTF-8 encoding of one code point, the encoder behind Python 2's
`unicode.encode('utf-8')` (which, like the decoder, also accepts the
surrogate range). -/
def utf8EncodeChar (c : Nat) : List Nat :=
  if c < 0x80 then [c]
  else if c < 0x800 then [0xC0 + c / 0x40, 0x80 + c % 0x40]
  else if c < 0x10000 then
    [0xE0 + c / 0x1000, 0x80 + (c / 0x40) % 0x40, 0x80 + c % 0x40]
  else
    [0xF0 + c / 0x40000, 0x80 + (c / 0x1000) % 0x40,
     0x80 + (c / 0x40) % 0x40, 0x80 + c % 0x40]

/-- UTF-8 encoding of a code-point sequence: `text_u.encode('utf-8')`. -/
def utf8Encode (s : List Nat) : List Nat :=
  (s.map utf8EncodeChar).flatten

/-- One step of UTF-8 decoding given the lead byte `b` and the remaining
bytes: the decoded code point and the bytes after the sequence, or `none`
on an invalid sequence.  Python 2.7 rejects overlong forms and lead bytes
C0, C1 and F5-FF, and accepts code points up to U+10FFFF including the
surrogate range (hence no surrogate restriction on 3-byte forms). -/
def utf8Step (b : Nat) (bs : List Nat) : Option (Nat × List Nat) :=
  if b < 0x80 then some (b, bs)
  else if b < 0xC2 then none
  else if b < 0xE0 then
    match bs with
    | b1 :: bs2 =>
      if isCont b1 then some ((b - 0xC0) * 0x40 + (b1 - 0x80), bs2) else none
    | [] => none
  else if b < 0xF0 then
    match bs with
    | b1 :: b2 :: bs2 =>
      if isCont b1 && isCont b2 && (decide (b ≠ 0xE0) || decide (0xA0 ≤ b1)) then
        some ((b - 0xE0) * 0x1000 + (b1 - 0x80) * 0x40 + (b2 - 0x80), bs2)
      else none
    | _ => none
  else if b < 0xF5 then
    match bs with
    | b1 :: b2 :: b3 :: bs2 =>
      if isCont b1 && isCont b2 && isCont b3 &&
          (decide (b ≠ 0xF0) || decide (0x90 ≤ b1)) &&
          (decide (b ≠ 0xF4) || decide (b1 < 0x90)) then
        some ((b - 0xF0) * 0x40000 + (b1 - 0x80) * 0x1000 +
              (b2 - 0x80) * 0x40 + (b3 - 0x80), bs2)
      else none
    | _ => none
  else none

/-- UTF-8 decoding, `raw.decode('utf-8')` in Python 2.7: `none` models a
raised `UnicodeDecodeError`. -/
def utf8Decode (l : List Nat) : Option (List Nat) :=
  match l with
  | [] => some []
  | b :: bs =>
    match h : utf8Step b bs with
    | none => none
    | some (c, rest) =>
      have hlt : rest.length < bs.length + 1 := by
        have hle : rest.length ≤ bs.length := by
          unfold utf8Step at h
          repeat' split at h
          all_goals simp_all
          all_goals omega
        omega
      (utf8Decode rest).map (fun s => c :: s)
termination_by l.length

/-- CP949 trail-byte region of the codec's double-byte table. -/
def isCp949Trail (t : Nat) : Bool :=
  (0x41 ≤ t && t ≤ 0x5A) || (0x61 ≤ t && t ≤ 0x7A) || (0x81 ≤ t && t ≤ 0xFE)

/-- `raw.decode('cp949', 'ignore')`: ASCII bytes pass through, a lead byte
in 81-FE together with a trail byte maps through the codec's table, and
every undecodable byte is dropped by the `ignore` error handler (which
advances one byte past the error position).  The double-byte code-point
table itself is the parameter `table`; all properties proved below hold
for every table. -/
def cp949DecodeIgnore (table : Nat → Nat → Nat) : List Nat → List Nat
  | [] => []
  | b :: bs =>
    if b < 0x80 then b :: cp949DecodeIgnore table bs
    else if b = 0x80 ∨ b = 0xFF then cp949DecodeIgnore table bs
    else
      match bs with
      | [] => []
      | t :: bs2 =>
        if isCp949Trail t then table b t :: cp949DecodeIgnore table bs2
        else cp949DecodeIgnore table (t :: bs2)

/-- ASCII decimal digit test. -/
def isDigit (c : Nat) : Bool :=
  48 ≤ c && c ≤ 57

/-- Value of an ASCII decimal digit string. -/
def digitsToNat (ds : List Nat) : Nat :=
  ds.foldl (fun a c => a * 10 + (c - 48)) 0

/-- Python 2 `int(s)` on an already-stripped string: an optional sign
followed by one or more decimal digits; anything else raises `ValueError`
(modelled as `none`).  (Python 2 additionally accepts non-ASCII Unicode
decimal digits; the configuration keys in play are ASCII.) -/
def pyInt (s : List Nat) : Option Int :=
  match s with
  | 43 :: ds => if ds ≠ [] ∧ ds.all isDigit then some (digitsToNat ds : Int) else none
  | 45 :: ds => if ds ≠ [] ∧ ds.all isDigit then some (-(digitsToNat ds : Int)) else none
  | ds => if ds ≠ [] ∧ ds.all isDigit then some (digitsToNat ds : Int) else none

/-! ## JSON values and `json.dumps`

`json.loads` (Python 2.7 stdlib) maps a JSON document to `unicode` for
strings, `bool`, `int`/`long` for integer numbers, `list`, `dict` and
`None`; the parser itself is stdlib and is modelled as the `Except` value
handed to the handler (its error component is the repr of the parse
exception).  JSON floats are not needed by any claim and are omitted;
`jnum` stands for the numeric case. -/

/-- A parsed JSON value as produced by `json.loads` in Python 2.7.
`jnull` is Python's `None`. -/
inductive JVal where
  | jnull : JVal
  | jbool : Bool → JVal
  | jnum : Int → JVal
  | jstr : List Nat → JVal
  | jarr : List JVal → JVal
  | jobj : List (String × JVal) → JVal

/-- Hexadecimal digit (lowercase), as in `json.dumps` escapes. -/
def hexDigit (n : Nat) : Char :=
  if n < 10 then Char.ofNat (48 + n) else Char.ofNat (87 + n)

/-- A `\uXXXX` escape. -/
def u4 (n : Nat) : String :=
  String.mk [Char.ofNat 92, Char.ofNat 117,
    hexDigit (n / 4096 % 16), hexDigit (n / 256 % 16),
    hexDigit (n / 16 % 16), hexDigit (n % 16)]

/-- `json.dumps` escaping of one code point with the default
`ensure_ascii=True`: printable ASCII other than quote and backslash is
literal, the usual short escapes apply, everything else becomes `\uXXXX`
(astral code points as a surrogate pair). -/
def escapeCp (c : Nat) : String :=
  if c = 34 then String.mk [Char.ofNat 92, Char.ofNat 34]
  else if c = 92 then String.mk [Char.ofNat 92, Char.ofNat 92]
  else if c = 8 then String.mk [Char.ofNat 92, Char.ofNat 98]
  else if c = 9 then String.mk [Char.ofNat 92, Char.ofNat 116]
  else if c = 10 then String.mk [Char.ofNat 92, Char.ofNat 110]
  else if c = 12 then String.mk [Char.ofNat 92, Char.ofNat 102]
  else if c = 13 then String.mk [Char.ofNat 92, Char.ofNat 114]
  else if c < 0x20 then u4 c
  else if c < 0x7F then String.singleton (Char.ofNat c)
  else if c < 0x10000 then u4 c
  else u4 (0xD800 + (c - 0x10000) / 0x400) ++ u4 (0xDC00 + (c - 0x10000) % 0x400)

/-- A JSON string literal for a code-point sequence. -/
def dumpCpStr (s : List Nat) : String :=
  String.singleton (Char.ofNat 34) ++ String.join (s.map escapeCp) ++
    String.singleton (Char.ofNat 34)

/-- A JSON string literal for a dict key given as a Lean string. -/
def dumpKey (k : String) : String :=
  dumpCpStr (str2cp k)

mutual

/-- `json.dumps(v)` with the Python 2.7 defaults (`ensure_ascii=True`,
separators `", "` and `": "`).  Dicts are serialised in the model's
association-list order, which is the construction order of every object
the bridge builds. -/
def jvalDumps : JVal → String
  | JVal.jnull => "null"
  | JVal.jbool true => "true"
  | JVal.jbool false => "false"
  | JVal.jnum n => toString n
  | JVal.jstr s => dumpCpStr s
  | JVal.jarr xs => "[" ++ jvalDumpsArr xs ++ "]"
  | JVal.jobj fs => "\x7b" ++ jvalDumpsObj fs ++ "\x7d"

/-- Array elements joined by `", "`. -/
def jvalDumpsArr : List JVal → String
  | [] => ""
  | [x] => jvalDumps x
  | x :: y :: xs => jvalDumps x ++ ", " ++ jvalDumpsArr (y :: xs)

/-- Object entries `key: value` joined by `", "`. -/
def jvalDumpsObj : List (String × JVal) → String
  | [] => ""
  | [(k, v)] => dumpKey k ++ ": " ++ jvalDumps v
  | (k, v) :: e :: fs => dumpKey k ++ ": " ++ jvalDumps v ++ ", " ++ jvalDumpsObj (e :: fs)

end

/-- The argument of `_send_json`: either a serialisable value or an object
on which `json.dumps` raises (Python allows passing any object; only the
serialisable ones succeed). -/
inductive PyObj where
  | json : JVal → PyObj
  | nonSerializable : String → PyObj

/-- `json.dumps(obj)` with failure: `none` models a raised exception. -/
def pyDumps : PyObj → Option String
  | PyObj.json v => some (jvalDumps v)
  | PyObj.nonSerializable _ => none

/-- An HTTP response as the handler emits it: status code and body.  Every
response also carries the fixed header `Content-Type: application/json;
charset=utf-8`, which no claim distinguishes, so headers are elided. -/
structure HttpResponse where
  code : Nat
  body : String
deriving DecidableEq

/-- `Handler._send_json` (nao_bridge.py lines 117-126): serialise the
object; if `json.dumps` raises, substitute the fixed fallback body and
force the status to 500; then send status and body. -/
def sendJson (code : Nat) (obj : PyObj) : HttpResponse :=
  match pyDumps obj with
  | some body => ⟨code, body⟩
  | none => ⟨500, "\x7b\"ok\":false,\"msg\":\"encode error\"\x7d"⟩

/-! ## The environment and the configuration gate -/

/-- `os.environ`, as an association list (first binding wins on lookup). -/
def EnvMap : Type :=
  List (List Nat × List Nat)

/-- Dictionary lookup, `os.environ.get(k)`. -/
def envLookup : EnvMap → List Nat → Option (List Nat)
  | [], _ => none
  | (k, v) :: rest, key => if k = key then some v else envLookup rest key

/-- Membership test, `k in os.environ`. -/
def envContains (env : EnvMap) (k : List Nat) : Bool :=
  (envLookup env k).isSome

/-- `os.environ[k]` under a guard that guarantees presence. -/
def envGetD (env : EnvMap) (k : List Nat) : List Nat :=
  (envLookup env k).getD []

/-- One line of the `.env` loader (nao_bridge.py lines 36-45): after the
branch-dependent strip, skip blank lines, comment lines and lines without
`=` (code point 61), split at the first `=`, strip key and value, and skip
an empty key (the `if k` guard at line 46). -/
def parseKV (strip : List Nat → List Nat) (line : List Nat) :
    Option (List Nat × List Nat) :=
  if line = [] then none
  else if line.head? = some 35 then none
  else if 61 ∈ line then
    let k := strip (line.takeWhile (fun c => c ≠ 61))
    let v := strip ((line.dropWhile (fun c => c ≠ 61)).tail)
    if k = [] then none else some (k, v)
  else none

/-- `raw.decode("utf-8").strip()` with the bare `raw.strip()` fallback of
lines 37-40, composed with the `KEY=VALUE` split: on the decoded branch
all strips are `unicode.strip`, on the fallback branch they are
`str.strip`. -/
def parseLine (raw : List Nat) : Option (List Nat × List Nat) :=
  match utf8Decode raw with
  | some u => parseKV pyStrip (pyStrip u)
  | none => parseKV bytesStrip (bytesStrip raw)

/-- The loop body of `load_dotenv_strict` (lines 36-47) over the byte
lines of the `.env` file: each parsed `KEY=VALUE` pair is inserted only
when the key is not already in the ambient environment.  Locating and
reading the file is I/O outside the model; the loader is modelled on the
line list it produces. -/
def loadDotenvLines : List (List Nat) → EnvMap → EnvMap
  | [], env => env
  | raw :: rest, env =>
    loadDotenvLines rest
      (match parseLine raw with
       | none => env
       | some (k, v) => if envContains env k then env else (k, v) :: env)

/-- The key `NAO_SDK_PATH`. -/
def kSdkPath : List Nat := str2cp ("NAO_SDK_PATH")

/-- The key `NAO_IP`. -/
def kNaoIp : List Nat := str2cp ("NAO_IP")

/-- The key `NAO_PORT`. -/
def kNaoPort : List Nat := str2cp ("NAO_PORT")

/-- The key `BRIDGE_BIND_IP`. -/
def kBindIp : List Nat := str2cp ("BRIDGE_BIND_IP")

/-- The key `BRIDGE_BIND_PORT`. -/
def kBindPort : List Nat := str2cp ("BRIDGE_BIND_PORT")

/-- `REQUIRED_KEYS` (nao_bridge.py lines 54-60). -/
def REQUIRED_KEYS : List (List Nat) :=
  [kSdkPath, kNaoIp, kNaoPort, kBindIp, kBindPort]

/-- `missing = [k for k in REQUIRED_KEYS if not os.environ.get(k)]`
(line 62): a key is missing when absent or bound to the empty (falsy)
string. -/
def missingKeys (env : EnvMap) : List (List Nat) :=
  REQUIRED_KEYS.filter (fun k =>
    match envLookup env k with
    | none => true
    | some v => v = [])

/-- The typed configuration of lines 67-71. -/
structure Config where
  naoSdkPath : List Nat
  naoIp : List Nat
  naoPort : Int
  bridgeBindIp : List Nat
  bridgeBindPort : Int
deriving DecidableEq

/-- A fatal startup error: `envError` is the `EnvironmentError` raised at
line 64 carrying the full missing-key list; `valueError` is the
`ValueError` raised by `int()` at line 69 or 71 carrying the offending
literal (the spec's taxonomy files both under ConfigError). -/
inductive StartupError where
  | envError : List (List Nat) → StartupError
  | valueError : List Nat → StartupError
deriving DecidableEq

/-- Startup validation and typing (lines 62-71): raise listing all missing
keys if any required key is absent or empty; otherwise strip every value
and convert the two ports with `int()`, `NAO_PORT` first.  `os.environ[k]`
indexing is total here because the missing-key gate guarantees
presence. -/
def buildConfig (env : EnvMap) : Except StartupError Config :=
  if missingKeys env = [] then
    match pyInt (pyStrip (envGetD env kNaoPort)) with
    | none => Except.error (StartupError.valueError (pyStrip (envGetD env kNaoPort)))
    | some naoPort =>
      match pyInt (pyStrip (envGetD env kBindPort)) with
      | none => Except.error (StartupError.valueError (pyStrip (envGetD env kBindPort)))
      | some bindPort =>
        Except.ok
          ⟨pyStrip (envGetD env kSdkPath), pyStrip (envGetD env kNaoIp), naoPort,
           pyStrip (envGetD env kBindIp), bindPort⟩
  else Except.error (StartupError.envError (missingKeys env))

/-! ## The request handler -/

/-- The shape of the `text` value when the handler's type branch at lines
139-146 runs: a Python 2 `unicode` (what `json.loads` yields for JSON
strings), a byte string `str` (the branch the code defends for), or any
other object, which has no `decode` attribute. -/
inductive TextVal where
  | uni : List Nat → TextVal
  | bytes : List Nat → TextVal
  | other : JVal → TextVal

/-- The Python type name of a parsed JSON value, used in exception
reprs. -/
def jvalTypeName : JVal → String
  | JVal.jnull => "NoneType"
  | JVal.jbool _ => "bool"
  | JVal.jnum _ => "int"
  | JVal.jstr _ => "unicode"
  | JVal.jarr _ => "list"
  | JVal.jobj _ => "dict"

/-- A raised Python exception as the outer handlers of lines 160-165 see
it: whether it is a `ValueError` (the `except ValueError` test), its
`str(e)`, and its `repr(e)`. -/
structure PyExc where
  isValueError : Bool
  str : String
  repr : String

/-- The `AttributeError` raised when an object lacks an attribute (the
quotes Python puts around the two names are elided); never a
`ValueError`. -/
def attrExc (ty attr : String) : PyExc :=
  ⟨false, ty ++ " object has no attribute " ++ attr,
   "AttributeError(" ++ ty ++ " object has no attribute " ++ attr ++ ")"⟩

/-- Normalisation of the `text` value (nao_bridge.py lines 139-146): a
`unicode` is stripped as-is; a byte string is decoded as UTF-8 and, if
that raises, as CP949 with `ignore`, then stripped; any other object
raises `AttributeError` from `.decode` on both attempts, which escapes the
inner `except` and is rethrown to the outer handler. -/
def normalize (table : Nat → Nat → Nat) : TextVal → Except PyExc (List Nat)
  | TextVal.uni s => Except.ok (pyStrip s)
  | TextVal.bytes b =>
    match utf8Decode b with
    | some u => Except.ok (pyStrip u)
    | none => Except.ok (pyStrip (cp949DecodeIgnore table b))
  | TextVal.other v => Except.error (attrExc (jvalTypeName v) ("decode"))

/-- The `text` value as the type branch sees it: `json.loads` produces
`unicode` for JSON strings and never a byte string, so every non-string
value lands in the `other` case. -/
def toTextVal : JVal → TextVal
  | JVal.jstr s => TextVal.uni s
  | v => TextVal.other v

/-- First binding of a key in a parsed JSON object (the dict built by
`json.loads` has unique keys). -/
def lookupField : List (String × JVal) → String → Option JVal
  | [], _ => none
  | (k, v) :: fs, key => if k = key then some v else lookupField fs key

/-- `data.get("text")` (line 133): on a dict it returns the bound value,
with JSON `null` already parsed to Python `None` (so an explicit null and
an absent key are indistinguishable here, both `none`); on any non-dict
top-level value `.get` raises `AttributeError`. -/
def pyGet : JVal → String → Except PyExc (Option JVal)
  | JVal.jobj fs, key =>
    Except.ok
      (match lookupField fs key with
       | none => none
       | some JVal.jnull => none
       | some v => some v)
  | v, _ => Except.error (attrExc (jvalTypeName v) ("get"))

/-- What one invocation of `do_POST` produces: the response written to the
socket, the payloads passed to `tts.say` (in order), and the lines written
to `sys.stderr`. -/
structure PostOutcome where
  resp : HttpResponse
  speakCalls : List (List Nat)
  errLog : List String
deriving DecidableEq

/-- The stderr line of line 164 (trailing newline elided). -/
def errLine (e : String) : String :=
  "[ERR ] do_POST /say: " ++ e

/-- The 500 envelope of line 165. -/
def serverErrorObj : JVal :=
  JVal.jobj [("ok", JVal.jbool false), ("msg", JVal.jstr (str2cp ("server error")))]

/-- The 404 envelope of lines 158 and 171. -/
def notFoundObj : JVal :=
  JVal.jobj [("ok", JVal.jbool false), ("msg", JVal.jstr (str2cp ("not found")))]

/-- The outer exception handlers of `do_POST` (nao_bridge.py lines
160-165): a `ValueError` — whatever step raised it, the backend call
included — is answered 400 with `str(ve)` in the body and nothing on
stderr; any other exception is logged to stderr and answered with the
opaque 500.  `calls` carries the speak calls made before the exception
was raised. -/
def excDispatch (exc : PyExc) (calls : List (List Nat)) : PostOutcome :=
  if exc.isValueError then
    ⟨sendJson 400 (PyObj.json (JVal.jobj
        [("ok", JVal.jbool false), ("msg", JVal.jstr (str2cp (exc.str)))])),
     calls, []⟩
  else
    ⟨sendJson 500 (PyObj.json serverErrorObj), calls, [errLine (exc.repr)]⟩

/-- `Handler.do_POST` (nao_bridge.py lines 128-165).  Parameters: `table`
is the CP949 table (see `cp949DecodeIgnore`); `path` is `self.path`;
`readJson` is the outcome of `self._read_json()` — `json.loads` over the
body bytes is stdlib, so the parse outcome is the model's input, with the
error component carrying the repr of the parse exception that
`_read_json` wraps into `ValueError("Invalid JSON body: %r" % e)`;
`backend` is `tts.say`, whose error component is the exception it raises.
Every exception raised inside the `try` block reaches `excDispatch`, the
model of the two outer handlers: in particular a backend-raised
`ValueError` is answered 400 with `str(ve)` in the body, and only
non-ValueError exceptions get the opaque 500. -/
def doPOST (table : Nat → Nat → Nat) (path : String)
    (readJson : Except String JVal)
    (backend : List Nat → Except PyExc Unit) : PostOutcome :=
  if path = "/say" then
    match readJson with
    | Except.error e =>
      excDispatch
        ⟨true, "Invalid JSON body: " ++ e,
         "ValueError(Invalid JSON body: " ++ e ++ ")"⟩ []
    | Except.ok data =>
      match pyGet data ("text") with
      | Except.error exc => excDispatch exc []
      | Except.ok none =>
        ⟨sendJson 400 (PyObj.json (JVal.jobj
            [("ok", JVal.jbool false),
             ("msg", JVal.jstr (str2cp ("text is required")))])), [], []⟩
      | Except.ok (some t) =>
        match normalize table (toTextVal t) with
        | Except.error exc => excDispatch exc []
        | Except.ok textU =>
          if textU = [] then
            ⟨sendJson 400 (PyObj.json (JVal.jobj
                [("ok", JVal.jbool false),
                 ("msg", JVal.jstr (str2cp ("text is empty")))])), [], []⟩
          else
            match backend (utf8Encode textU) with
            | Except.ok _ =>
              ⟨sendJson 200 (PyObj.json (JVal.jobj [("ok", JVal.jbool true)])),
               [utf8Encode textU], []⟩
            | Except.error e => excDispatch e [utf8Encode textU]
  else
    ⟨sendJson 404 (PyObj.json notFoundObj), [], []⟩

/-- `Handler.do_GET` (lines 167-171). -/
def doGET (path : String) : HttpResponse :=
  if path = "/health" then
    sendJson 200 (PyObj.json (JVal.jobj
      [("ok", JVal.jbool true), ("service", JVal.jstr (str2cp ("nao_bridge")))]))
  else
    sendJson 404 (PyObj.json notFoundObj)

/-- Full request dispatch.  The source defines only `do_GET` and
`do_POST`; for every other method the Python 2.7 `BaseHTTPRequestHandler`
(the transport base class, outside this repository) finds no `do_<METHOD>`
attribute and answers `send_error(501, "Unsupported method (%r)")` — the
501 status is the modelled fact; the real body is the stdlib HTML error
page, represented here by its message line. -/
def handleRequest (table : Nat → Nat → Nat) (method : String) (path : String)
    (readJson : Except String JVal)
    (backend : List Nat → Except PyExc Unit) : PostOutcome :=
  if method = "GET" then ⟨doGET path, [], []⟩
  else if method = "POST" then doPOST table path readJson backend
  else ⟨⟨501, "Unsupported method (" ++ method ++ ")"⟩, [], []⟩

/-! ## Response body constants, as Python 2.7 `json.dumps` prints them -/

/-- Body `OPEN"ok": trueCLOSE` (braces written out by the dumper). -/
def okTrueBody : String :=
  "\x7b\"ok\": true\x7d"

/-- Body of the 404 envelope. -/
def notFoundBody : String :=
  "\x7b\"ok\": false, \"msg\": \"not found\"\x7d"

/-- Body of the opaque 500 envelope. -/
def serverErrorBody : String :=
  "\x7b\"ok\": false, \"msg\": \"server error\"\x7d"

/-- The fixed fallback body of `_send_json` (line 121, no spaces). -/
def encodeErrorBody : String :=
  "\x7b\"ok\":false,\"msg\":\"encode error\"\x7d"

/-- Concrete helpers for closed witness statements. -/
def tableZero : Nat → Nat → Nat :=
  fun _ _ => 0

/-- A backend that always succeeds. -/
def backendOk : List Nat → Except PyExc Unit :=
  fun _ => Except.ok ()

/-- A backend that always raises a non-ValueError exception. -/
def backendFail : List Nat → Except PyExc Unit :=
  fun _ => Except.error
    ⟨false, "network is unreachable", "RuntimeError(network is unreachable)"⟩

/-- A backend that always raises a `ValueError`. -/
def backendValueError : List Nat → Except PyExc Unit :=
  fun _ => Except.error
    ⟨true, "text too long for tts", "ValueError(text too long for tts)"⟩

/-- A concrete environment with all keys present and a non-numeric
NAO_PORT, for closed witness statements. -/
def env5 : EnvMap :=
  [(kSdkPath, str2cp ("sdk")), (kNaoIp, str2cp ("192.168.0.2")),
   (kNaoPort, str2cp ("abc")), (kBindIp, str2cp ("0.0.0.0")),
   (kBindPort, str2cp ("8088"))]

/-! ## Helper lemmas -/

/-- Evaluation of the serialised opaque 500 envelope. -/
theorem sendJson_serverError :
    sendJson 500 (PyObj.json serverErrorObj) = ⟨500, serverErrorBody⟩ := by
  decide

/-- The non-ValueError arm of the outer handlers of lines 160-165: the
opaque 500 plus a stderr line carrying the repr of the exception. -/
theorem excDispatch_not_valueError (exc : PyExc) (calls : List (List Nat))
    (h : exc.isValueError = false) :
    excDispatch exc calls =
      ⟨⟨500, serverErrorBody⟩, calls, [errLine (exc.repr)]⟩ := by
  rw [excDispatch, if_neg (by rw [h]; exact Bool.false_ne_true)]
  rw [sendJson_serverError]

/-- Evaluation of the serialised 404 envelope. -/
theorem sendJson_notFound :
    sendJson 404 (PyObj.json notFoundObj) = ⟨404, notFoundBody⟩ := by
  decide

/-- Evaluation of the serialised success envelope. -/
theorem sendJson_okTrue :
    sendJson 200 (PyObj.json (JVal.jobj [("ok", JVal.jbool true)])) =
      ⟨200, okTrueBody⟩ := by
  decide

/-- The dotenv loader never changes the binding of a key that is already
present: the insertion at line 47 is guarded by `k not in os.environ`. -/
theorem loadDotenv_preserves (lines : List (List Nat)) (env : EnvMap)
    (k v0 : List Nat) (h : envLookup env k = some v0) :
    envLookup (loadDotenvLines lines env) k = some v0 := by
  induction lines generalizing env with
  | nil => exact h
  | cons raw rest ih =>
    show envLookup (loadDotenvLines rest _) k = some v0
    apply ih
    cases hp : parseLine raw with
    | none => simpa [hp] using h
    | some kv =>
      obtain ⟨k1, v1⟩ := kv
      by_cases hc : envContains env k1
      · simpa [hp, hc] using h
      · have hne : k1 ≠ k := by
          intro he
          rw [he] at hc
          simp [envContains, h] at hc
        simpa [hp, hc, envLookup, hne] using h

/-- A successfully built configuration takes its IP field from the
(stripped) environment value of `NAO_IP` (line 68). -/
theorem buildConfig_naoIp (env : EnvMap) (cfg : Config)
    (h : buildConfig env = Except.ok cfg) :
    cfg.naoIp = pyStrip (envGetD env kNaoIp) := by
  unfold buildConfig at h
  split at h
  · split at h
    · exact absurd h (by simp)
    · split at h
      · exact absurd h (by simp)
      · cases h
        rfl
  · exact absurd h (by simp)

/-- Unfolding of the decoder on a nonempty input. -/
theorem utf8Decode_cons (b : Nat) (bs : List Nat) :
    utf8Decode (b :: bs) =
      match utf8Step b bs with
      | none => none
      | some (c, rest) => (utf8Decode rest).map (fun s => c :: s) := by
  rw [utf8Decode]
  split
  · rename_i heq
    conv_rhs => rw [heq]
  · rename_i c rest heq
    conv_rhs => rw [heq]

/-- A step on a single encoded code point consumes exactly its bytes and
recovers it.  Every Python-2-representable code point (up to U+10FFFF,
surrogates included) is covered, matching the lenient Python 2.7 codec. -/
theorem utf8Step_encodeChar (c : Nat) (h : c < 0x110000) (rest : List Nat) :
    ∃ b tl, utf8EncodeChar c = b :: tl ∧ utf8Step b (tl ++ rest) = some (c, rest) := by
  rcases Nat.lt_or_ge c 0x80 with h1 | h1
  · refine ⟨c, [], by rw [utf8EncodeChar, if_pos h1], ?_⟩
    rw [List.nil_append]
    unfold utf8Step
    rw [if_pos h1]
  rcases Nat.lt_or_ge c 0x800 with h2 | h2
  · refine ⟨0xC0 + c / 0x40, [0x80 + c % 0x40],
      by rw [utf8EncodeChar, if_neg (by omega), if_pos h2], ?_⟩
    have f1 : ¬ (0xC0 + c / 0x40 < 0x80) := by omega
    have f2 : ¬ (0xC0 + c / 0x40 < 0xC2) := by omega
    have f3 : 0xC0 + c / 0x40 < 0xE0 := by omega
    have f4 : isCont (0x80 + c % 0x40) = true := by
      simp only [isCont, Bool.and_eq_true, decide_eq_true_eq]
      omega
    have fv : (0xC0 + c / 0x40 - 0xC0) * 0x40 + (0x80 + c % 0x40 - 0x80) = c := by
      omega
    unfold utf8Step
    rw [if_neg f1, if_neg f2, if_pos f3]
    dsimp only [List.cons_append, List.nil_append]
    rw [if_pos f4, fv]
  rcases Nat.lt_or_ge c 0x10000 with h3 | h3
  · refine ⟨0xE0 + c / 0x1000, [0x80 + (c / 0x40) % 0x40, 0x80 + c % 0x40],
      by rw [utf8EncodeChar, if_neg (by omega), if_neg (by omega), if_pos h3], ?_⟩
    have f1 : ¬ (0xE0 + c / 0x1000 < 0x80) := by omega
    have f2 : ¬ (0xE0 + c / 0x1000 < 0xC2) := by omega
    have f3 : ¬ (0xE0 + c / 0x1000 < 0xE0) := by omega
    have f4 : 0xE0 + c / 0x1000 < 0xF0 := by omega
    have fc : (isCont (0x80 + (c / 0x40) % 0x40) && isCont (0x80 + c % 0x40) &&
        (decide (0xE0 + c / 0x1000 ≠ 0xE0) ||
         decide (0xA0 ≤ 0x80 + (c / 0x40) % 0x40))) = true := by
      simp only [isCont, Bool.and_eq_true, Bool.or_eq_true, decide_eq_true_eq]
      omega
    have fv : (0xE0 + c / 0x1000 - 0xE0) * 0x1000 +
        (0x80 + (c / 0x40) % 0x40 - 0x80) * 0x40 + (0x80 + c % 0x40 - 0x80) = c := by
      omega
    unfold utf8Step
    rw [if_neg f1, if_neg f2, if_neg f3, if_pos f4]
    dsimp only [List.cons_append, List.nil_append]
    rw [if_pos fc, fv]
  · refine ⟨0xF0 + c / 0x40000,
      [0x80 + (c / 0x1000) % 0x40, 0x80 + (c / 0x40) % 0x40, 0x80 + c % 0x40],
      by rw [utf8EncodeChar, if_neg (by omega), if_neg (by omega), if_neg (by omega)], ?_⟩
    have f1 : ¬ (0xF0 + c / 0x40000 < 0x80) := by omega
    have f2 : ¬ (0xF0 + c / 0x40000 < 0xC2) := by omega
    have f3 : ¬ (0xF0 + c / 0x40000 < 0xE0) := by omega
    have f4 : ¬ (0xF0 + c / 0x40000 < 0xF0) := by omega
    have f5 : 0xF0 + c / 0x40000 < 0xF5 := by omega
    have fc : (isCont (0x80 + (c / 0x1000) % 0x40) && isCont (0x80 + (c / 0x40) % 0x40) &&
        isCont (0x80 + c % 0x40) &&
        (decide (0xF0 + c / 0x40000 ≠ 0xF0) ||
         decide (0x90 ≤ 0x80 + (c / 0x1000) % 0x40)) &&
        (decide (0xF0 + c / 0x40000 ≠ 0xF4) ||
         decide (0x80 + (c / 0x1000) % 0x40 < 0x90))) = true := by
      simp only [isCont, Bool.and_eq_true, Bool.or_eq_true, decide_eq_true_eq]
      omega
    have fv : (0xF0 + c / 0x40000 - 0xF0) * 0x40000 +
        (0x80 + (c / 0x1000) % 0x40 - 0x80) * 0x1000 +
        (0x80 + (c / 0x40) % 0x40 - 0x80) * 0x40 + (0x80 + c % 0x40 - 0x80) = c := by
      omega
    unfold utf8Step
    rw [if_neg f1, if_neg f2, if_neg f3, if_neg f4, if_pos f5]
    dsimp only [List.cons_append, List.nil_append]
    rw [if_pos fc, fv]

/-- Decoding a single encoded code point at the front of a byte stream
recovers it. -/
theorem utf8Decode_encodeChar (c : Nat) (h : c < 0x110000) (rest : List Nat) :
    utf8Decode (utf8EncodeChar c ++ rest) =
      (utf8Decode rest).map (fun s => c :: s) := by
  obtain ⟨b, tl, he, hs⟩ := utf8Step_encodeChar c h rest
  rw [he, List.cons_append, utf8Decode_cons, hs]

/-- UTF-8 round trip: decoding the encoding of any Python-2-representable
code-point sequence recovers it. -/
theorem utf8_roundtrip (s : List Nat) (h : ∀ c ∈ s, c < 0x110000) :
    utf8Decode (utf8Encode s) = some s := by
  induction s with
  | nil =>
    show utf8Decode [] = some []
    rw [utf8Decode]
  | cons c cs ih =>
    have hc : c < 0x110000 := h c (List.mem_cons_self c cs)
    have hcs := ih (fun x hx => h x (List.mem_cons_of_mem c hx))
    have e0 : utf8Encode (c :: cs) = utf8EncodeChar c ++ utf8Encode cs := by
      simp [utf8Encode]
    rw [e0, utf8Decode_encodeChar c hc, hcs]
    rfl

/-! ## Claims -/

/-- C2: for every raw byte-sequence text input, normalisation is total —
UTF-8 decoding is attempted first, and on any UTF-8 decode failure the
step falls back to CP949 decoding with undecodable bytes dropped, so for
byte inputs this step never raises. -/
theorem c2_byte_normalization_total (table : Nat → Nat → Nat) (b : List Nat) :
    (∃ u, normalize table (TextVal.bytes b) = Except.ok u) ∧
    (∀ u, utf8Decode b = some u →
      normalize table (TextVal.bytes b) = Except.ok (pyStrip u)) ∧
    (utf8Decode b = none →
      normalize table (TextVal.bytes b) =
        Except.ok (pyStrip (cp949DecodeIgnore table b))) := by
  refine ⟨?_, fun u hu => by simp only [normalize, hu],
    fun hn => by simp only [normalize, hn]⟩
  cases hd : utf8Decode b with
  | none =>
    exact ⟨pyStrip (cp949DecodeIgnore table b), by simp only [normalize, hd]⟩
  | some u => exact ⟨pyStrip u, by simp only [normalize, hd]⟩

/-- C2 witness: the single byte FF is invalid UTF-8, and normalisation
still succeeds through the CP949 fallback (which drops it). -/
theorem c2_witness :
    normalize tableZero (TextVal.bytes [0xFF]) =
      Except.ok (pyStrip (cp949DecodeIgnore tableZero [0xFF])) :=
  (c2_byte_normalization_total tableZero [0xFF]).2.2 (by rw [utf8Decode_cons]; rfl)

/-- C3: a byte sequence that is the UTF-8 encoding of a string normalises
to exactly that string stripped of leading and trailing whitespace, and
the later UTF-8 re-encoding hands the backend the UTF-8 bytes of the
stripped original. -/
theorem c3_utf8_roundtrip_strip (table : Nat → Nat → Nat) (s : List Nat)
    (h : ∀ c ∈ s, c < 0x110000) :
    normalize table (TextVal.bytes (utf8Encode s)) = Except.ok (pyStrip s) ∧
    Except.map utf8Encode (normalize table (TextVal.bytes (utf8Encode s))) =
      Except.ok (utf8Encode (pyStrip s)) := by
  have hd := utf8_roundtrip s h
  refine ⟨by simp only [normalize, hd], ?_⟩
  simp only [normalize, hd]
  rfl

/-- C3 witness at a concrete Korean string with surrounding whitespace. -/
theorem c3_witness :
    normalize tableZero (TextVal.bytes (utf8Encode (str2cp (" 안녕 NAO ")))) =
      Except.ok (pyStrip (str2cp (" 안녕 NAO "))) :=
  (c3_utf8_roundtrip_strip tableZero (str2cp (" 안녕 NAO ")) (by decide)).1

/-- C4: whenever some subset of the five required keys is absent or empty
after loading, startup fails with the error listing exactly that subset —
all missing keys, not just the first. -/
theorem c4_missing_keys_all_reported (lines : List (List Nat)) (env0 : EnvMap)
    (h : missingKeys (loadDotenvLines lines env0) ≠ []) :
    buildConfig (loadDotenvLines lines env0) =
      Except.error (StartupError.envError (missingKeys (loadDotenvLines lines env0))) ∧
    ∀ k, k ∈ missingKeys (loadDotenvLines lines env0) ↔
      (k ∈ REQUIRED_KEYS ∧
        (envLookup (loadDotenvLines lines env0) k = none ∨
         envLookup (loadDotenvLines lines env0) k = some [])) := by
  constructor
  · rw [buildConfig, if_neg h]
  · intro k
    rw [missingKeys, List.mem_filter]
    constructor
    · rintro ⟨hk, hp⟩
      refine ⟨hk, ?_⟩
      cases hl : envLookup (loadDotenvLines lines env0) k with
      | none => exact Or.inl rfl
      | some v =>
        rw [hl] at hp
        simp only [decide_eq_true_eq] at hp
        exact Or.inr (by rw [hp])
    · rintro ⟨hk, hl | hl⟩
      · exact ⟨hk, by rw [hl]⟩
      · exact ⟨hk, by rw [hl]; rfl⟩

/-- C4 witness: empty file and empty ambient environment — all five keys
are reported missing. -/
theorem c4_witness :
    buildConfig (loadDotenvLines [] []) =
      Except.error (StartupError.envError (missingKeys (loadDotenvLines [] []))) :=
  (c4_missing_keys_all_reported [] [] (by decide)).1

/-- C5: a present, non-empty but non-numeric backend-port or bind-port
value makes startup fail in the `int()` conversion (a `ValueError`, which
the spec's taxonomy classifies as ConfigError). -/
theorem c5_nonnumeric_port_fails (env : EnvMap)
    (hm : missingKeys env = [])
    (hp : pyInt (pyStrip (envGetD env kNaoPort)) = none ∨
          pyInt (pyStrip (envGetD env kBindPort)) = none) :
    ∃ lit, buildConfig env = Except.error (StartupError.valueError lit) := by
  rcases hp with hp | hp
  · exact ⟨_, by rw [buildConfig, if_pos hm, hp]⟩
  · cases hq : pyInt (pyStrip (envGetD env kNaoPort)) with
    | none => exact ⟨_, by rw [buildConfig, if_pos hm, hq]⟩
    | some n => exact ⟨_, by rw [buildConfig, if_pos hm, hq, hp]⟩

/-- C5 witness: startup on `env5` fails in port conversion. -/
theorem c5_witness :
    ∃ lit, buildConfig env5 = Except.error (StartupError.valueError lit) :=
  c5_nonnumeric_port_fails env5 (by decide) (Or.inl (by decide))

/-- C6: a key already present in the ambient process environment is not
overwritten by a `KEY=VALUE` line of the settings file, and the loaded
configuration uses the ambient value (shown on the `NAO_IP` field). -/
theorem c6_ambient_precedence (lines : List (List Nat)) (env0 : EnvMap)
    (k v0 : List Nat) (h : envLookup env0 k = some v0) :
    envLookup (loadDotenvLines lines env0) k = some v0 ∧
    (k = kNaoIp → ∀ cfg, buildConfig (loadDotenvLines lines env0) = Except.ok cfg →
      cfg.naoIp = pyStrip v0) := by
  refine ⟨loadDotenv_preserves lines env0 k v0 h, ?_⟩
  rintro rfl cfg hc
  have h1 := loadDotenv_preserves lines env0 kNaoIp v0 h
  rw [buildConfig_naoIp _ _ hc, envGetD, h1]
  rfl

/-- C6 witness: the file line `NAO_IP=10.0.0.5` does not displace the
ambient binding `192.168.0.9`. -/
theorem c6_witness :
    envLookup (loadDotenvLines [str2cp ("NAO_IP=10.0.0.5")]
        [(kNaoIp, str2cp ("192.168.0.9"))]) kNaoIp =
      some (str2cp ("192.168.0.9")) :=
  (c6_ambient_precedence [str2cp ("NAO_IP=10.0.0.5")]
    [(kNaoIp, str2cp ("192.168.0.9"))] kNaoIp (str2cp ("192.168.0.9"))
    (by decide)).1

/-- C9: if serialising the response object raises, `_send_json` sends the
fixed fallback body and forces the status to 500, whatever status was
requested. -/
theorem c9_encode_error_fallback (code : Nat) (obj : PyObj)
    (h : pyDumps obj = none) :
    sendJson code obj = ⟨500, encodeErrorBody⟩ := by
  rw [sendJson, h]
  rfl

/-- C9 witness: a non-serialisable object requested with status 200 is
answered 500 with the fallback body. -/
theorem c9_witness :
    pyDumps (PyObj.nonSerializable ("file handle")) = none ∧
    sendJson 200 (PyObj.nonSerializable ("file handle")) = ⟨500, encodeErrorBody⟩ :=
  ⟨rfl, c9_encode_error_fallback 200 (PyObj.nonSerializable ("file handle")) rfl⟩

/-- C1: a POST /say whose body parses as a JSON object with string field
`text` equal to `hello` is answered 200 with the success envelope, and the
backend speak operation is invoked exactly once, with the UTF-8 encoding
of the stripped text (assuming the backend call returns normally). -/
theorem c1_post_say_hello (table : Nat → Nat → Nat)
    (fields : List (String × JVal)) (backend : List Nat → Except PyExc Unit)
    (hf : lookupField fields ("text") = some (JVal.jstr (str2cp ("hello"))))
    (hb : backend (utf8Encode (pyStrip (str2cp ("hello")))) = Except.ok ()) :
    doPOST table ("/say") (Except.ok (JVal.jobj fields)) backend =
      ⟨⟨200, okTrueBody⟩, [utf8Encode (pyStrip (str2cp ("hello")))], []⟩ := by
  have hg : pyGet (JVal.jobj fields) ("text") =
      Except.ok (some (JVal.jstr (str2cp ("hello")))) := by
    simp only [pyGet, hf]
  have hne : ¬ (pyStrip (str2cp ("hello")) = []) := by decide
  rw [doPOST, if_pos (show ("/say" : String) = "/say" from rfl), hg]
  dsimp only [toTextVal, normalize]
  rw [if_neg hne, hb, sendJson_okTrue]

/-- C1 witness at the concrete one-field body and a succeeding backend. -/
theorem c1_witness :
    doPOST tableZero ("/say")
        (Except.ok (JVal.jobj [("text", JVal.jstr (str2cp ("hello")))]))
        backendOk =
      ⟨⟨200, okTrueBody⟩, [utf8Encode (pyStrip (str2cp ("hello")))], []⟩ :=
  c1_post_say_hello tableZero [("text", JVal.jstr (str2cp ("hello")))]
    backendOk (by rfl) (by rfl)

/-- C7 counterexample: a backend-raised `ValueError` is caught by the
except-ValueError handler of line 160 and answered 400 with `str(ve)`
leaked in the body and nothing written to stderr — not the opaque 500 —
refuting the claim for arbitrary backend exceptions. -/
theorem c7_counterexample :
    (doPOST tableZero ("/say")
        (Except.ok (JVal.jobj [("text", JVal.jstr (str2cp ("hello")))]))
        backendValueError).resp =
      ⟨400, "\x7b\"ok\": false, \"msg\": \"text too long for tts\"\x7d"⟩ ∧
    ¬ ((doPOST tableZero ("/say")
        (Except.ok (JVal.jobj [("text", JVal.jstr (str2cp ("hello")))]))
        backendValueError).resp = ⟨500, serverErrorBody⟩) ∧
    (doPOST tableZero ("/say")
        (Except.ok (JVal.jobj [("text", JVal.jstr (str2cp ("hello")))]))
        backendValueError).errLog = [] := by
  decide

/-- C7 (amended): when the backend speak call raises an exception that is
not a `ValueError`, the handler logs the detail only to the error stream
and answers exactly 500 with the constant opaque envelope; when the
backend raises a `ValueError`, the except-ValueError handler answers 400
with `str(ve)` in the body and nothing on stderr. -/
theorem c7_backend_exception_dispatch (table : Nat → Nat → Nat)
    (fields : List (String × JVal)) (s : List Nat) (exc : PyExc)
    (backend : List Nat → Except PyExc Unit)
    (hf : lookupField fields ("text") = some (JVal.jstr s))
    (hne : ¬ (pyStrip s = []))
    (hb : backend (utf8Encode (pyStrip s)) = Except.error exc) :
    (exc.isValueError = false →
      doPOST table ("/say") (Except.ok (JVal.jobj fields)) backend =
        ⟨⟨500, serverErrorBody⟩, [utf8Encode (pyStrip s)],
         [errLine (exc.repr)]⟩) ∧
    (exc.isValueError = true →
      doPOST table ("/say") (Except.ok (JVal.jobj fields)) backend =
        ⟨sendJson 400 (PyObj.json (JVal.jobj
            [("ok", JVal.jbool false), ("msg", JVal.jstr (str2cp (exc.str)))])),
         [utf8Encode (pyStrip s)], []⟩) := by
  have hg : pyGet (JVal.jobj fields) ("text") =
      Except.ok (some (JVal.jstr s)) := by
    simp only [pyGet, hf]
  have hred : doPOST table ("/say") (Except.ok (JVal.jobj fields)) backend =
      excDispatch exc [utf8Encode (pyStrip s)] := by
    rw [doPOST, if_pos (show ("/say" : String) = "/say" from rfl), hg]
    dsimp only [toTextVal, normalize]
    rw [if_neg hne, hb]
  constructor
  · intro hv
    rw [hred]
    exact excDispatch_not_valueError exc _ hv
  · intro hv
    rw [hred, excDispatch, if_pos hv]

/-- C7 witness: a non-ValueError backend exception at a concrete request
is answered by the opaque 500 with the detail on stderr only. -/
theorem c7_witness :
    doPOST tableZero ("/say")
        (Except.ok (JVal.jobj [("text", JVal.jstr (str2cp ("hello")))]))
        backendFail =
      ⟨⟨500, serverErrorBody⟩, [utf8Encode (pyStrip (str2cp ("hello")))],
       [errLine ("RuntimeError(network is unreachable)")]⟩ :=
  (c7_backend_exception_dispatch tableZero
    [("text", JVal.jstr (str2cp ("hello")))] (str2cp ("hello"))
    ⟨false, "network is unreachable", "RuntimeError(network is unreachable)"⟩
    backendFail (by rfl) (by decide) (by rfl)).1 (by rfl)

/-- C8 (amended): a GET to any path other than /health and a POST to any
path other than /say are answered 404 with the not-found envelope; a
request whose method is neither GET nor POST is answered 501 (Unsupported
method) by the HTTP base handler, not 404. -/
theorem c8_unknown_path_404 (table : Nat → Nat → Nat) (path : String)
    (readJson : Except String JVal) (backend : List Nat → Except PyExc Unit) :
    (path ≠ "/health" →
      handleRequest table ("GET") path readJson backend =
        ⟨⟨404, notFoundBody⟩, [], []⟩) ∧
    (path ≠ "/say" →
      handleRequest table ("POST") path readJson backend =
        ⟨⟨404, notFoundBody⟩, [], []⟩) ∧
    (∀ m, m ≠ "GET" → m ≠ "POST" →
      (handleRequest table m path readJson backend).resp.code = 501) := by
  refine ⟨?_, ?_, ?_⟩
  · intro hp
    rw [handleRequest, if_pos (show ("GET" : String) = "GET" from rfl)]
    rw [doGET, if_neg hp, sendJson_notFound]
  · intro hp
    rw [handleRequest,
      if_neg (show ¬ ("POST" : String) = "GET" by decide),
      if_pos (show ("POST" : String) = "POST" from rfl)]
    unfold doPOST
    rw [if_neg hp, sendJson_notFound]
  · intro m hm1 hm2
    rw [handleRequest, if_neg hm1, if_neg hm2]

/-- C8 counterexample: a DELETE to an unknown path is not answered with
the 404 envelope (the base handler answers 501), refuting the claim for
arbitrary methods. -/
theorem c8_counterexample :
    ¬ (handleRequest tableZero ("DELETE") ("/missing")
        (Except.ok (JVal.jobj [])) backendOk =
       ⟨⟨404, notFoundBody⟩, [], []⟩) := by
  decide

/-- C8 witness: a GET to an unknown path is answered 404. -/
theorem c8_witness :
    handleRequest tableZero ("GET") ("/missing")
        (Except.ok (JVal.jobj [])) backendOk =
      ⟨⟨404, notFoundBody⟩, [], []⟩ :=
  (c8_unknown_path_404 tableZero ("/missing")
    (Except.ok (JVal.jobj [])) backendOk).1 (by decide)

/-- C10: a POST /say whose parsed body is not an object, or whose `text`
field holds a non-null value that is neither a string nor a byte sequence,
is answered 500 with the opaque envelope (not 400), and the backend is
never invoked. -/
theorem c10_invalid_shapes_500 (table : Nat → Nat → Nat) (v : JVal)
    (backend : List Nat → Except PyExc Unit)
    (h : (∀ fs, v ≠ JVal.jobj fs) ∨
         (∃ fs t, v = JVal.jobj fs ∧ lookupField fs ("text") = some t ∧
           t ≠ JVal.jnull ∧ ∀ s, t ≠ JVal.jstr s)) :
    (doPOST table ("/say") (Except.ok v) backend).resp = ⟨500, serverErrorBody⟩ ∧
    (doPOST table ("/say") (Except.ok v) backend).speakCalls = [] := by
  have hout : ∃ log, doPOST table ("/say") (Except.ok v) backend =
      ⟨⟨500, serverErrorBody⟩, [], log⟩ := by
    rcases h with h | ⟨fs, t, rfl, hf, hnull, hstr⟩
    · obtain ⟨msg, hm, hmv⟩ :
          ∃ msg, pyGet v ("text") = Except.error msg ∧
            msg.isValueError = false := by
        cases v with
        | jobj fs => exact absurd rfl (h fs)
        | jnull => exact ⟨_, rfl, rfl⟩
        | jbool b => exact ⟨_, rfl, rfl⟩
        | jnum n => exact ⟨_, rfl, rfl⟩
        | jstr s => exact ⟨_, rfl, rfl⟩
        | jarr xs => exact ⟨_, rfl, rfl⟩
      refine ⟨[errLine (msg.repr)], ?_⟩
      rw [doPOST, if_pos (show ("/say" : String) = "/say" from rfl), hm]
      exact excDispatch_not_valueError msg [] hmv
    · have hg : pyGet (JVal.jobj fs) ("text") = Except.ok (some t) := by
        have e : pyGet (JVal.jobj fs) ("text") =
            Except.ok (match lookupField fs ("text") with
              | none => none
              | some JVal.jnull => none
              | some w => some w) := rfl
        rw [e, hf]
        cases t with
        | jnull => exact absurd rfl hnull
        | jbool b => rfl
        | jnum n => rfl
        | jstr s => rfl
        | jarr xs => rfl
        | jobj fs2 => rfl
      obtain ⟨m, hm, hmv⟩ :
          ∃ m, normalize table (toTextVal t) = Except.error m ∧
            m.isValueError = false := by
        cases t with
        | jnull => exact absurd rfl hnull
        | jstr s => exact absurd rfl (hstr s)
        | jbool b => exact ⟨_, rfl, rfl⟩
        | jnum n => exact ⟨_, rfl, rfl⟩
        | jarr xs => exact ⟨_, rfl, rfl⟩
        | jobj fs2 => exact ⟨_, rfl, rfl⟩
      refine ⟨[errLine (m.repr)], ?_⟩
      rw [doPOST, if_pos (show ("/say" : String) = "/say" from rfl), hg]
      dsimp only
      rw [hm]
      exact excDispatch_not_valueError m [] hmv
  obtain ⟨log, hout⟩ := hout
  rw [hout]
  exact ⟨rfl, rfl⟩

/-- C10 witness: a JSON number as the whole body is answered 500 and no
speak call happens. -/
theorem c10_witness :
    (doPOST tableZero ("/say") (Except.ok (JVal.jnum 5)) backendOk).resp =
      ⟨500, serverErrorBody⟩ ∧
    (doPOST tableZero ("/say") (Except.ok (JVal.jnum 5)) backendOk).speakCalls =
      [] :=
  c10_invalid_shapes_500 tableZero (JVal.jnum 5) backendOk
    (Or.inl (fun _ hfs => JVal.noConfusion hfs))

end NaoBridge
